import Mathlib

/-!
Verification of the payment-gateway backend (src/backend/server.js).

The development shallowly embeds the two request handlers of the server:
`POST /api/create-link` and `POST /api/webhook`, together with the JavaScript
value semantics (truthiness, `typeof`, `||`, `Math.round`) that the handlers
rely on.  JavaScript numbers are modelled as exact values (NaN, the two
infinities, or a rational); side effects that the claims talk about (computing
the HMAC, reading the parsed body's `event` field, invoking the paid-event
branch, issuing the outbound provider call) are recorded as Boolean fields of
the result records, mirroring exactly where in the source each effect happens.
Node's `crypto.createHmac('sha256', secret).update(raw).digest('hex')` is
library code outside the repository; it enters the model as an arbitrary
function argument `hmac : String → List Nat → String`, since every claim
depends only on comparing its output with the header value, never on the
digest itself.
-/

namespace PaymentGateway

/-- Model of a JavaScript number: NaN, +Infinity, -Infinity, or a finite
value.  Finite values are modelled exactly (as rationals); the handlers under
verification only multiply by 100 and round, so no floating-point rounding of
intermediate results is modelled. -/
inductive JSNum where
  | nan
  | posInf
  | negInf
  | finite (q : ℚ)
deriving DecidableEq

/-- Model of a JavaScript value as it can appear in a parsed JSON request
body or a provider response field: `undefined` (absent field), `null`,
booleans, numbers, strings, and opaque object/array values (anything an
object or array; the handlers never look inside them). -/
inductive JSVal where
  | undef
  | null
  | bool (b : Bool)
  | num (n : JSNum)
  | str (s : String)
  | obj
  | arr
deriving DecidableEq

/-- JavaScript truthiness: `undefined`, `null`, `false`, `NaN`, `0` and the
empty string are falsy; every other value (including every object and array)
is truthy. -/
def truthy : JSVal → Bool
  | .undef => false
  | .null => false
  | .bool b => b
  | .num .nan => false
  | .num (.finite q) => decide (q ≠ 0)
  | .num _ => true
  | .str s => decide (s ≠ "")
  | .obj => true
  | .arr => true

/-- Whether `typeof v === 'number'` holds. -/
def typeofNumber : JSVal → Bool
  | .num _ => true
  | _ => false

/-- Numeric content of a value already known to satisfy `typeofNumber`. -/
def numOf : JSVal → JSNum
  | .num n => n
  | _ => .nan

/-- JavaScript `a || b`: `a` when `a` is truthy, otherwise `b`
(src/backend/server.js line 74 uses this on the two provider URL fields). -/
def jsOr (a b : JSVal) : JSVal :=
  if truthy a then a else b

/-- JavaScript multiplication by the literal `100` (src line 47,
`amount_in_inr * 100`): NaN and the infinities propagate, finite values are
scaled exactly. -/
def jsMul100 : JSNum → JSNum
  | .nan => .nan
  | .posInf => .posInf
  | .negInf => .negInf
  | .finite q => .finite (q * 100)

/-- JavaScript `Math.round` (src line 47): NaN and the infinities are fixed
points; a finite value rounds to the nearest integer with halves rounding
toward positive infinity, i.e. `floor (q + 1/2)`. -/
def jsMathRound : JSNum → JSNum
  | .nan => .nan
  | .posInf => .posInf
  | .negInf => .negInf
  | .finite q => .finite ((⌊q + 1/2⌋ : ℤ) : ℚ)

/-- Rounding to the nearest integer with ties going away from zero — the
tie-break rule the specification names for the minor-unit conversion. -/
def roundHalfAwayFromZero (q : ℚ) : ℤ :=
  if 0 ≤ q then ⌊q + 1/2⌋ else -⌊-q + 1/2⌋

/-- Timed scan comparing two character lists, the standard timing model of a
non-constant-time equality: characters are compared left to right and the scan
stops at the first mismatch.  The second component counts how many character
comparisons were performed — the observable that a timing side channel
exposes. -/
def scanEq : List Char → List Char → Bool × Nat
  | [], [] => (true, 0)
  | [], _ :: _ => (false, 0)
  | _ :: _, [] => (false, 0)
  | a :: as, b :: bs =>
    if a = b then
      let r := scanEq as bs
      (r.1, r.2 + 1)
    else (false, 1)

/-- Timing model of JavaScript string `===` as used on src line 99
(`signature === expected`): a length check, then a left-to-right scan that
stops at the first mismatching character.  The Boolean component is ordinary
string equality; the cost component is the number of character comparisons. -/
def strEqTimed (a b : String) : Bool × Nat :=
  if a.length = b.length then scanEq a.data b.data else (false, 0)

/-- Everything the webhook handler (src lines 83-114) produces that the
claims mention: the HTTP status and plain-text body of the response, and
three effect flags recording whether the HMAC digest was computed (line 97),
whether the parsed body's `event` field was read (line 101), and whether the
`payment_link.paid` branch ran (lines 104-108).  `compareCost` is the number
of character comparisons the signature comparison performed (`none` when no
comparison happened). -/
structure WebhookResult where
  status : Nat
  body : String
  hmacComputed : Bool
  eventRead : Bool
  paidHookInvoked : Bool
  compareCost : Option Nat
deriving DecidableEq

/-- Embedding of the `POST /api/webhook` handler, src/backend/server.js
lines 83-114.  `hmac` stands for Node's
`crypto.createHmac('sha256', secret).update(raw).digest('hex')`; `secret` is
`process.env.RAZOR_WEBHOOK_SECRET` (an environment variable is either unset
or a string, and the empty string is falsy, hence the extra `= ""` test);
`sig` is the `x-razorpay-signature` header; `raw` is `req.rawBody` (set by
the body-capture middleware, so either absent or a byte buffer — a Buffer is
truthy in JavaScript, so only absence fails the `!raw` test); `event` is
`req.body.event`. -/
def webhookHandler (hmac : String → List Nat → String) (secret sig : Option String)
    (raw : Option (List Nat)) (event : JSVal) : WebhookResult :=
  match secret with
  | none => ⟨500, "webhook secret not configured", false, false, false, none⟩
  | some s =>
    if s = "" then ⟨500, "webhook secret not configured", false, false, false, none⟩
    else
      match sig, raw with
      | some v, some bytes =>
        if v = "" then ⟨400, "bad request", false, false, false, none⟩
        else
          let expected := hmac s bytes
          let cmp := strEqTimed v expected
          if cmp.1 then
            ⟨200, "ok", true, true, decide (event = .str "payment_link.paid"), some cmp.2⟩
          else
            ⟨400, "invalid signature", true, false, false, some cmp.2⟩
      | _, _ => ⟨400, "bad request", false, false, false, none⟩

/-- Raw-body capture wired in through `express.json`'s `verify` hook
(src lines 9-13): the parser stores the exact received bytes on
`req.rawBody` before structured parsing.  Requests whose body is absent or
empty are skipped by the JSON body parser, so `req.rawBody` stays unset for
them. -/
def capturedRawBody (bytes : List Nat) : Option (List Nat) :=
  if bytes = [] then none else some bytes

/-- Webhook handler composed with the raw-body capture middleware: the
handler as reached by an actual request whose body bytes are `bytes`. -/
def webhookPipeline (hmac : String → List Nat → String) (secret sig : Option String)
    (bytes : List Nat) (event : JSVal) : WebhookResult :=
  webhookHandler hmac secret sig (capturedRawBody bytes) event

/-- Provider response JSON as far as the handler inspects it: the two URL
fields of the parsed `data` (src lines 67-74); an absent field is
`JSVal.undef`. -/
structure ProviderData where
  short_url : JSVal
  link_url : JSVal
deriving DecidableEq

/-- Outcome of `fetch` plus `resp.json()` (src lines 58-67): either the
transport or JSON decoding failed (the promise rejected, landing in the
`catch` at line 75), or a response arrived with `resp.ok` status flag and
parsed body `data`. -/
inductive FetchOutcome where
  | netFail
  | response (ok : Bool) (data : ProviderData)
deriving DecidableEq

/-- Provider-facing request payload built at src lines 49-56.  `acceptPart`
embeds the JSON field `accept_partial`. -/
structure LinkPayload where
  amount : JSNum
  currency : String
  acceptPart : Bool
  description : String
deriving DecidableEq

/-- JSON body of a `create-link` response: `\x7b error: msg \x7d`,
`\x7b error: msg, details: data \x7d`, or `\x7b link_url: v \x7d` (when `v`
is `undefined`, `JSON.stringify` drops the field — the constructor still
records the value passed to `res.json`). -/
inductive RespBody where
  | errJson (msg : String)
  | errDetails (msg : String) (details : ProviderData)
  | linkJson (link_url : JSVal)
deriving DecidableEq

/-- Everything the `create-link` handler produces that the claims mention:
status and JSON body of the response, whether the outbound `fetch` to the
provider was issued (src line 58), and the payload it was issued with. -/
structure CreateLinkResult where
  status : Nat
  body : RespBody
  providerCalled : Bool
  sentPayload : Option LinkPayload
deriving DecidableEq

/-- Embedding of the `POST /api/create-link` handler, src/backend/server.js
lines 41-79.  `amount` is `req.body.amount_in_inr` (any JSON value, `undef`
when absent); `outcome` is what the provider call would produce, a parameter
because the provider is an external collaborator.  The validation at
lines 44-46 is JavaScript `!amount_in_inr || typeof amount_in_inr !==
'number'`: falsy-or-not-a-number. -/
def createLink (amount : JSVal) (outcome : FetchOutcome) : CreateLinkResult :=
  if !truthy amount || !typeofNumber amount then
    ⟨400, .errJson "amount_in_inr required (number)", false, none⟩
  else
    let amountPaise := jsMathRound (jsMul100 (numOf amount))
    let payload : LinkPayload := ⟨amountPaise, "INR", false, "Payment to me (demo)"⟩
    match outcome with
    | .netFail => ⟨500, .errJson "internal server error", true, some payload⟩
    | .response false data => ⟨502, .errDetails "payment provider error" data, true, some payload⟩
    | .response true data => ⟨200, .linkJson (jsOr data.short_url data.link_url), true, some payload⟩

/-- Scanning comparison decides list equality. -/
theorem scanEq_fst_iff : ∀ (a b : List Char), (scanEq a b).1 = true ↔ a = b
  | [], [] => by simp [scanEq]
  | [], _ :: _ => by simp [scanEq]
  | _ :: _, [] => by simp [scanEq]
  | a :: as, b :: bs => by
    by_cases h : a = b
    · simpa [scanEq, h] using scanEq_fst_iff as bs
    · simp [scanEq, h]

/-- Boolean component of the timed comparison is ordinary string equality. -/
theorem strEqTimed_fst_iff (a b : String) : (strEqTimed a b).1 = true ↔ a = b := by
  unfold strEqTimed
  by_cases h : a.length = b.length
  · simpa [h] using (scanEq_fst_iff a.data b.data).trans ⟨String.ext, congrArg String.data⟩
  · simp only [h, if_false]
    constructor
    · intro hf; cases hf
    · intro hab; exact absurd (congrArg String.length hab) h

/-- Concrete stand-in for the HMAC function, used to instantiate witness
statements on closed inputs. -/
def hmacDemo : String → List Nat → String := fun _ _ => "ab"

/-- C1: the parsed body's `event` field is read only after signature
verification has succeeded (the secret is configured, the header and raw body
are present, and the header equals the computed digest), and on a signature
mismatch the handler responds 400 `invalid signature` having read no event
and invoked no event handling. -/
theorem webhook_event_gated_by_signature (hmac : String → List Nat → String)
    (secret sig : Option String) (raw : Option (List Nat)) (event : JSVal) :
    ((webhookHandler hmac secret sig raw event).eventRead = true →
      ∃ s v bytes, secret = some s ∧ s ≠ "" ∧ sig = some v ∧ v ≠ "" ∧
        raw = some bytes ∧ v = hmac s bytes) ∧
    (∀ s v bytes, secret = some s → s ≠ "" → sig = some v → v ≠ "" →
      raw = some bytes → v ≠ hmac s bytes →
      webhookHandler hmac secret sig raw event =
        ⟨400, "invalid signature", true, false, false,
          some (strEqTimed v (hmac s bytes)).2⟩) := by
  constructor
  · intro hread
    rcases secret with _ | s
    · simp [webhookHandler] at hread
    by_cases hs : s = ""
    · simp [webhookHandler, hs] at hread
    rcases sig with _ | v
    · simp [webhookHandler, hs] at hread
    rcases raw with _ | bytes
    · simp [webhookHandler, hs] at hread
    by_cases hv : v = ""
    · simp [webhookHandler, hs, hv] at hread
    by_cases hcmp : (strEqTimed v (hmac s bytes)).1 = true
    · exact ⟨s, v, bytes, rfl, hs, rfl, hv, rfl,
        (strEqTimed_fst_iff v (hmac s bytes)).mp hcmp⟩
    · simp [webhookHandler, hs, hv, hcmp] at hread
  · intro s v bytes hsecret hs hsig hv hraw hne
    subst hsecret; subst hsig; subst hraw
    have hcmp : ¬((strEqTimed v (hmac s bytes)).1 = true) := fun h =>
      hne ((strEqTimed_fst_iff v (hmac s bytes)).mp h)
    simp [webhookHandler, hs, hv, hcmp]

/-- Witness for C1: with the secret `"s"`, raw body `[1]` and a header that
differs from the computed digest `"ab"`, the handler rejects with 400
`invalid signature`, reads no event field, and invokes no handling. -/
theorem webhook_event_gated_by_signature_witness :
    webhookHandler hmacDemo (some "s") (some "xx") (some [1]) (.str "payment_link.paid") =
      ⟨400, "invalid signature", true, false, false, some 1⟩ := by
  have h := (webhook_event_gated_by_signature hmacDemo (some "s") (some "xx")
    (some [1]) (.str "payment_link.paid")).2 "s" "xx" [1] rfl (by decide) rfl
    (by decide) rfl (by decide)
  rw [h]
  have : (strEqTimed "xx" (hmacDemo "s" [1])).2 = 1 := by decide
  rw [this]

/-- C2: the signature comparison at src line 99 is JavaScript `===`, whose
running time depends on the position of the first mismatch.  Two forged
same-length signatures against the same expected digest `"ab"` are both
rejected with 400, yet the comparison performs 1 character comparison for one
and 2 for the other — the comparison leaks where the candidate first
diverges from the digest, so it is not constant-time. -/
theorem webhook_signature_compare_not_constant_time :
    (webhookHandler hmacDemo (some "s") (some "xb") (some [1]) .undef).status = 400 ∧
    (webhookHandler hmacDemo (some "s") (some "ax") (some [1]) .undef).status = 400 ∧
    (webhookHandler hmacDemo (some "s") (some "xb") (some [1]) .undef).compareCost = some 1 ∧
    (webhookHandler hmacDemo (some "s") (some "ax") (some [1]) .undef).compareCost = some 2 := by
  decide

/-- C3: with the webhook secret unset (or set to the falsy empty string) the
handler answers 500 `webhook secret not configured` for every request —
whatever the signature header, raw body and parsed body are — computing no
HMAC and reading no event. -/
theorem webhook_secret_missing_always_500 (hmac : String → List Nat → String)
    (secret sig : Option String) (raw : Option (List Nat)) (event : JSVal)
    (h : secret = none ∨ secret = some "") :
    webhookHandler hmac secret sig raw event =
      ⟨500, "webhook secret not configured", false, false, false, none⟩ := by
  cases h with
  | inl h => subst h; simp [webhookHandler]
  | inr h => subst h; simp [webhookHandler]

/-- Witness for C3: the secret is unset while the request carries a raw body
and a header equal to the digest an attacker-guessed secret would give; the
handler still answers 500. -/
theorem webhook_secret_missing_always_500_witness :
    webhookHandler hmacDemo none (some (hmacDemo "s" [1])) (some [1]) (.str "payment_link.paid") =
      ⟨500, "webhook secret not configured", false, false, false, none⟩ :=
  webhook_secret_missing_always_500 hmacDemo none (some (hmacDemo "s" [1]))
    (some [1]) (.str "payment_link.paid") (Or.inl rfl)

/-- C4: with the secret configured, a request whose signature header is
absent or empty, or whose body bytes are empty (so the capture middleware
left `req.rawBody` unset), is answered 400 `bad request` whatever the parsed
body is, and no HMAC is computed. -/
theorem webhook_missing_header_or_body_400 (hmac : String → List Nat → String)
    (s : String) (sig : Option String) (bytes : List Nat) (event : JSVal)
    (hs : s ≠ "") (h : sig = none ∨ sig = some "" ∨ bytes = []) :
    webhookPipeline hmac (some s) sig bytes event =
      ⟨400, "bad request", false, false, false, none⟩ := by
  rcases h with h | h | h
  · subst h; rcases hcap : capturedRawBody bytes with _ | b <;>
      simp [webhookPipeline, webhookHandler, hcap, hs]
  · subst h; rcases hcap : capturedRawBody bytes with _ | b <;>
      simp [webhookPipeline, webhookHandler, hcap, hs]
  · have hcap : capturedRawBody bytes = none := by rw [capturedRawBody, if_pos h]
    rcases sig with _ | v <;> simp [webhookPipeline, webhookHandler, hcap, hs]

/-- Witness for C4: secret `"s"`, a syntactically well-formed JSON body whose
bytes are nonempty, but no signature header: 400 `bad request`, no HMAC. -/
theorem webhook_missing_header_or_body_400_witness :
    webhookPipeline hmacDemo (some "s") none [123, 125] (.str "payment_link.paid") =
      ⟨400, "bad request", false, false, false, none⟩ :=
  webhook_missing_header_or_body_400 hmacDemo "s" none [123, 125]
    (.str "payment_link.paid") (by decide) (Or.inl rfl)

/-- C5: when the secret is configured, the raw body present and the header
equal to the computed digest, the handler answers 200 `ok` whatever the
`event` field holds, and any event other than `payment_link.paid` (a missing
field included) triggers no further handling. -/
theorem webhook_verified_always_200 (hmac : String → List Nat → String)
    (s : String) (bytes : List Nat) (event : JSVal)
    (hs : s ≠ "") (hv : hmac s bytes ≠ "") :
    (webhookHandler hmac (some s) (some (hmac s bytes)) (some bytes) event).status = 200 ∧
    (webhookHandler hmac (some s) (some (hmac s bytes)) (some bytes) event).body = "ok" ∧
    (event ≠ .str "payment_link.paid" →
      (webhookHandler hmac (some s) (some (hmac s bytes)) (some bytes) event).paidHookInvoked
        = false) := by
  have hcmp : (strEqTimed (hmac s bytes) (hmac s bytes)).1 = true :=
    (strEqTimed_fst_iff _ _).mpr rfl
  refine ⟨?_, ?_, fun hev => ?_⟩
  · simp [webhookHandler, hs, hv, hcmp]
  · simp [webhookHandler, hs, hv, hcmp]
  · simp [webhookHandler, hs, hv, hcmp, hev]

/-- Witness for C5: a correctly signed request whose event field is the
unrecognized name `other.event` is acknowledged with 200 `ok` and triggers
no handling. -/
theorem webhook_verified_always_200_witness :
    (webhookHandler hmacDemo (some "s") (some (hmacDemo "s" [1])) (some [1])
        (.str "other.event")).status = 200 ∧
    (webhookHandler hmacDemo (some "s") (some (hmacDemo "s" [1])) (some [1])
        (.str "other.event")).paidHookInvoked = false := by
  have h := webhook_verified_always_200 hmacDemo "s" [1] (.str "other.event")
    (by decide) (by decide)
  exact ⟨h.1, h.2.2 (by decide)⟩

/-- Nonzero finite numbers are truthy. -/
theorem truthy_finite_num (q : ℚ) (hq : q ≠ 0) : truthy (.num (.finite q)) = true := by
  simp [truthy, hq]

/-- C6 (amended): `create-link` answers 400 with body
`error: amount_in_inr required (number)` exactly when `amount_in_inr` is
falsy (missing, `null`, `0`, NaN, `false`, the empty string) or not of
number type; negative and infinite numbers pass the check. -/
theorem create_link_validation_400_iff (amount : JSVal) (outcome : FetchOutcome) :
    ((createLink amount outcome).status = 400 ∧
      (createLink amount outcome).body = .errJson "amount_in_inr required (number)") ↔
    (truthy amount = false ∨ typeofNumber amount = false) := by
  rcases outcome with _ | ⟨_ | _, data⟩ <;>
    by_cases h1 : truthy amount = true <;>
      by_cases h2 : typeofNumber amount = true <;>
        simp [createLink, h1, h2]

/-- Counterexample to C6 as stated: a negative amount (`-5`) and a
non-finite amount (`Infinity`) are not rejected — the handler proceeds and,
with a successful provider response, answers 200 instead of the claimed
400. -/
theorem create_link_negative_or_infinite_not_rejected :
    (createLink (.num (.finite (-5))) (.response true ⟨.str "u", .undef⟩)).status = 200 ∧
    (createLink (.num .posInf) (.response true ⟨.str "u", .undef⟩)).status = 200 := by
  decide

/-- C7 (amended): `create-link` makes no outbound provider call exactly when
the validation rejects the amount, i.e. when `amount_in_inr` is falsy or not
of number type; a negative (or infinite) number does trigger the call. -/
theorem create_link_no_provider_call_iff (amount : JSVal) (outcome : FetchOutcome) :
    (createLink amount outcome).providerCalled = false ↔
    (truthy amount = false ∨ typeofNumber amount = false) := by
  rcases outcome with _ | ⟨_ | _, data⟩ <;>
    by_cases h1 : truthy amount = true <;>
      by_cases h2 : typeofNumber amount = true <;>
        simp [createLink, h1, h2]

/-- Counterexample to C7 as stated: the amount `-5` is in the claim's list of
inputs that must make no provider call, yet the outbound call is issued. -/
theorem create_link_negative_amount_calls_provider :
    (createLink (.num (.finite (-5))) (.response true ⟨.str "u", .undef⟩)).providerCalled
      = true := by
  decide

/-- C8: for every positive finite amount the payload sent to the provider
carries `Math.round(amount * 100)`, which on positive inputs is exactly the
round-half-away-from-zero of `amount * 100`; the conversion is a function of
the amount alone (deterministic), and at amount 10 it yields 1000. -/
theorem create_link_amount_conversion (q : ℚ) (outcome : FetchOutcome) (hq : 0 < q) :
    (createLink (.num (.finite q)) outcome).sentPayload =
      some ⟨.finite (roundHalfAwayFromZero (q * 100)), "INR", false, "Payment to me (demo)"⟩ ∧
    (createLink (.num (.finite 10)) outcome).sentPayload =
      some ⟨.finite 1000, "INR", false, "Payment to me (demo)"⟩ := by
  have hq0 : q ≠ 0 := ne_of_gt hq
  have h100 : 0 ≤ q * 100 := by positivity
  have hr : roundHalfAwayFromZero (q * 100) = ⌊q * 100 + 1/2⌋ := by
    rw [roundHalfAwayFromZero, if_pos h100]
  constructor
  · rcases outcome with _ | ⟨_ | _, data⟩ <;>
      simp [createLink, truthy_finite_num q hq0, typeofNumber, numOf, jsMul100,
        jsMathRound, hr]
  · rcases outcome with _ | ⟨_ | _, data⟩ <;>
      · simp only [createLink, truthy, typeofNumber, numOf, jsMul100, jsMathRound]
        norm_num

/-- Witness for C8: at amount 10 the payload sent to the provider carries
1000 paise. -/
theorem create_link_amount_conversion_witness :
    (createLink (.num (.finite 10)) .netFail).sentPayload =
      some ⟨.finite 1000, "INR", false, "Payment to me (demo)"⟩ :=
  (create_link_amount_conversion 10 .netFail (by norm_num)).2

/-- C9 (amended): when the provider responds with success status but both
URL fields are absent, the handler still answers 200 and passes
`link_url: undefined` to `res.json` (the field is dropped from the serialized
body); no malformed-upstream error is reported. -/
theorem create_link_missing_urls_still_200 (q : ℚ) (data : ProviderData)
    (hq : q ≠ 0) (hshort : data.short_url = .undef) (hlink : data.link_url = .undef) :
    (createLink (.num (.finite q)) (.response true data)).status = 200 ∧
    (createLink (.num (.finite q)) (.response true data)).body = .linkJson .undef := by
  constructor <;>
    simp [createLink, typeofNumber, jsOr, hshort, hlink, truthy, hq]

/-- Counterexample to C9 as stated: amount 10, provider success response with
neither `short_url` nor `link_url`: the handler answers 200 with the success
shape, not a malformed-upstream error. -/
theorem create_link_missing_urls_counterexample :
    (createLink (.num (.finite 10)) (.response true ⟨.undef, .undef⟩)).status = 200 ∧
    (createLink (.num (.finite 10)) (.response true ⟨.undef, .undef⟩)).body
      = .linkJson .undef := by
  decide

/-- Witness for C9 (amended): instantiated at amount 2 and the field-free
success response. -/
theorem create_link_missing_urls_still_200_witness :
    (createLink (.num (.finite 2)) (.response true ⟨.undef, .undef⟩)).status = 200 ∧
    (createLink (.num (.finite 2)) (.response true ⟨.undef, .undef⟩)).body
      = .linkJson .undef :=
  create_link_missing_urls_still_200 2 ⟨.undef, .undef⟩ (by norm_num) rfl rfl

/-- C10 (amended): on a provider success response carrying both URL fields,
the value returned as `link_url` is `short_url` when `short_url` is truthy
(for strings: nonempty); when `short_url` is falsy — the empty string, `null`
— the handler falls back to `link_url` even though `short_url` is present. -/
theorem create_link_short_url_truthy_precedence (q : ℚ) (s l : JSVal) (hq : q ≠ 0) :
    (truthy s = true →
      (createLink (.num (.finite q)) (.response true ⟨s, l⟩)).body = .linkJson s) ∧
    (truthy s = false →
      (createLink (.num (.finite q)) (.response true ⟨s, l⟩)).body = .linkJson l) := by
  constructor <;> intro hts <;>
    simp [createLink, truthy_finite_num q hq, typeofNumber, jsOr, hts]

/-- Counterexample to C10 as stated: both fields present, `short_url` the
empty string: the returned value is `link_url`, not `short_url`. -/
theorem create_link_empty_short_url_falls_back :
    (createLink (.num (.finite 10))
        (.response true ⟨.str "", .str "https://pay.example/b"⟩)).body
      = .linkJson (.str "https://pay.example/b") ∧
    JSVal.str "" ≠ JSVal.str "https://pay.example/b" := by
  decide

/-- Witness for C10 (amended): both URLs nonempty strings; `short_url` is
returned. -/
theorem create_link_short_url_truthy_precedence_witness :
    (createLink (.num (.finite 10))
        (.response true ⟨.str "https://pay.example/a", .str "https://pay.example/b"⟩)).body
      = .linkJson (.str "https://pay.example/a") :=
  (create_link_short_url_truthy_precedence 10 (.str "https://pay.example/a")
    (.str "https://pay.example/b") (by norm_num)).1 (by decide)

end PaymentGateway
